import Mathlib

/-!
Verification of the WealthFlow forecast engine (`lib/forecast.ts`) and the
heuristic advisor (`lib/heuristic-advisor.ts`).

Numbers: JavaScript numerics are idealised as rationals (ℚ); the 2-decimal
rounding helper `Math.round(n * 100) / 100` becomes `r2` below, using the
JavaScript `Math.round` semantics `⌊x + 1/2⌋`.

Partiality: `lib/forecast.ts` indexes `snapshots[snapshots.length - 1]` after
the month loop, so a run with zero simulated months dereferences `undefined`
and throws; the embedding returns `Option ForecastResult`, with `none`
standing for a thrown `TypeError`.  Likewise the advisor reads
`snapshots[m].cash` for every reported negative-cash month, so it is also
embedded as `Option`-valued.
-/

/-- `r2` from `lib/forecast.ts`: `Math.round(n * 100) / 100`. -/
def r2 (n : ℚ) : ℚ := ((Int.floor (n * 100 + 1 / 2) : ℤ) : ℚ) / 100

-- ── Scenario input types (`lib/types.ts`) ─────────────────────────────────

structure IncomeInput where
  amount : ℚ
  startMonth : ℕ
  endMonth : Option ℕ
  growthRate : ℚ

inductive ExpenseCategory
  | fixed
  | discretionary
  | rent
deriving DecidableEq

structure ExpenseInput where
  amount : ℚ
  category : ExpenseCategory
  startMonth : ℕ
  endMonth : Option ℕ
  growthRate : ℚ
  isOneTime : Bool

inductive DebtStrategy
  | min
  | aggressive
  | instant
deriving DecidableEq

structure DebtInput where
  balance : ℚ
  annualRate : ℚ
  minPayment : ℚ
  strategy : DebtStrategy

structure InvestmentInput where
  currentValue : ℚ
  monthlyContribution : ℚ
  expectedAnnualReturn : ℚ

structure OneTimeEvent where
  amount : ℚ
  month : ℕ

inductive GoalType
  | savings
  | netWorth
  | investment
deriving DecidableEq

structure FinancialGoal where
  targetAmount : ℚ
  targetMonth : ℕ
  gtype : GoalType

structure ScenarioInput where
  months : ℕ
  initialCash : ℚ
  incomes : List IncomeInput
  expenses : List ExpenseInput
  debts : List DebtInput
  investments : List InvestmentInput
  inflationRate : ℚ
  taxRate : ℚ
  oneTimeEvents : List OneTimeEvent
  goals : List FinancialGoal

-- ── Forecast output types ─────────────────────────────────────────────────

structure MonthSnapshot where
  month : ℕ
  cash : ℚ
  netWorth : ℚ
  totalDebt : ℚ
  totalInvestments : ℚ
  totalIncome : ℚ
  totalExpenses : ℚ
  totalDebtPayment : ℚ
  totalInvestmentContribution : ℚ

structure ForecastSummary where
  endCash : ℚ
  endNetWorth : ℚ
  minCash : ℚ
  minCashMonth : ℕ
  negativeCashMonths : List ℕ
  debtFreeMonth : Option ℕ
  totalInterestPaid : ℚ
  endInvestmentValue : ℚ
  totalTaxPaid : ℚ

structure GoalProgress where
  targetAmount : ℚ
  targetMonth : ℕ
  achievedMonth : Option ℕ
  endValue : ℚ
  onTrack : Bool

structure ForecastResult where
  snapshots : List MonthSnapshot
  summary : ForecastSummary
  goalProgress : List GoalProgress

-- ── Forecast engine (`lib/forecast.ts`) ───────────────────────────────────

/-- `endMonth != null && month > endMonth`. -/
def pastEnd (e : Option ℕ) (month : ℕ) : Bool :=
  match e with
  | none => false
  | some e => decide (e < month)

/-- `monthlyIncome` from `lib/forecast.ts`. -/
def monthlyIncome (income : IncomeInput) (month : ℕ) : ℚ :=
  if month < income.startMonth then 0
  else if pastEnd income.endMonth month then 0
  else r2 (income.amount * (1 + income.growthRate / 100) ^ (month / 12))

/-- `monthlyExpense` from `lib/forecast.ts`. -/
def monthlyExpense (expense : ExpenseInput) (month : ℕ) : ℚ :=
  if month < expense.startMonth then 0
  else if pastEnd expense.endMonth month then 0
  else if expense.isOneTime && month ≠ expense.startMonth then 0
  else r2 (expense.amount * (1 + expense.growthRate / 100) ^ (month / 12))

structure DebtState where
  balance : ℚ
  annualRate : ℚ
  minPayment : ℚ
  strategy : DebtStrategy
  paidOff : Bool

structure DebtStepOut where
  payment : ℚ
  interest : ℚ
  newBalance : ℚ

/-- `stepDebt` from `lib/forecast.ts`. -/
def stepDebt (state : DebtState) (extraCash : ℚ) : DebtStepOut :=
  if state.paidOff = true ∨ state.balance ≤ 0 then
    { payment := 0, interest := 0, newBalance := 0 }
  else
    let monthlyRate := state.annualRate / 100 / 12
    let interest := r2 (state.balance * monthlyRate)
    let payment :=
      match state.strategy with
      | DebtStrategy.instant => r2 (state.balance + interest)
      | DebtStrategy.aggressive =>
          r2 (min (state.balance + interest)
                  (state.minPayment + max 0 (extraCash * (3 / 10))))
      | DebtStrategy.min => r2 (min (state.balance + interest) state.minPayment)
    { payment := payment, interest := interest,
      newBalance := r2 (max 0 (state.balance + interest - payment)) }

/-- `stepInvestment` from `lib/forecast.ts`. -/
def stepInvestment (value contribution annualReturn : ℚ) : ℚ :=
  r2 (value * (1 + annualReturn / 100 / 12) + contribution)

/-- `grossIncome` of month `m` (forecast loop step 1). -/
def grossIncomeOf (sc : ScenarioInput) (m : ℕ) : ℚ :=
  r2 (sc.incomes.foldl (fun s inc => s + monthlyIncome inc m) 0)

/-- `taxThisMonth` of month `m`. -/
def taxOf (sc : ScenarioInput) (m : ℕ) : ℚ :=
  r2 (grossIncomeOf sc m * (sc.taxRate / 100))

/-- `netIncome` of month `m`. -/
def netIncomeOf (sc : ScenarioInput) (m : ℕ) : ℚ :=
  r2 (grossIncomeOf sc m - taxOf sc m)

/-- `inflationMultiplier = (1 + inflationRate/100/12) ^ m`. -/
def inflationMultiplierOf (sc : ScenarioInput) (m : ℕ) : ℚ :=
  (1 + sc.inflationRate / 100 / 12) ^ m

/-- `totalExpenses` of month `m` (inflation-adjusted). -/
def totalExpensesOf (sc : ScenarioInput) (m : ℕ) : ℚ :=
  r2 (sc.expenses.foldl
    (fun s e => s + monthlyExpense e m * inflationMultiplierOf sc m) 0)

/-- `oneTimeNet` of month `m`. -/
def oneTimeNetOf (sc : ScenarioInput) (m : ℕ) : ℚ :=
  r2 (((sc.oneTimeEvents.filter (fun ev => ev.month == m)).foldl
    (fun s ev => s + ev.amount) 0))

structure DebtPhaseOut where
  states : List DebtState
  totalPayment : ℚ
  totalInterest : ℚ

/-- One debt-loop iteration body: apply `stepDebt`, write back the new
balance, and set `paidOff` when the new balance is `≤ 0`. -/
def debtUpdate (d : DebtState) (extraCash : ℚ) : DebtState :=
  let r := stepDebt d extraCash
  { d with balance := r.newBalance,
           paidOff := if r.newBalance ≤ 0 then true else d.paidOff }

/-- The debt-service loop of `computeForecast`: every debt is evaluated
against the same `extraCash` argument. -/
def debtPhase (ds : List DebtState) (extraCash : ℚ) : DebtPhaseOut :=
  ds.foldl
    (fun acc d =>
      let r := stepDebt d extraCash
      { states := acc.states ++ [debtUpdate d extraCash],
        totalPayment := r2 (acc.totalPayment + r.payment),
        totalInterest := r2 (acc.totalInterest + r.interest) })
    { states := [], totalPayment := 0, totalInterest := 0 }

structure InvestPhaseOut where
  values : List ℚ
  totalContrib : ℚ

/-- The investment-contribution loop of `computeForecast`. -/
def investPhase (invs : List InvestmentInput) (vals : List ℚ) : InvestPhaseOut :=
  (invs.zip vals).foldl
    (fun acc p =>
      { values := acc.values ++
          [stepInvestment p.2 p.1.monthlyContribution p.1.expectedAnnualReturn],
        totalContrib := r2 (acc.totalContrib + p.1.monthlyContribution) })
    { values := [], totalContrib := 0 }

/-- Goal tracking: first month each goal's metric crosses its target. -/
def goalUpdate (m : ℕ) (cash netWorth totalInv : ℚ)
    (gs : List (FinancialGoal × Option ℕ)) : List (Option ℕ) :=
  gs.map (fun p =>
    match p.2 with
    | some a => some a
    | none =>
      let actual :=
        match p.1.gtype with
        | GoalType.savings => cash
        | GoalType.netWorth => netWorth
        | GoalType.investment => totalInv
      if p.1.targetAmount ≤ actual then some m else none)

structure SimState where
  cash : ℚ
  debtStates : List DebtState
  invValues : List ℚ
  snapshots : List MonthSnapshot
  totalInterestPaid : ℚ
  totalTaxPaid : ℚ
  negativeCashMonths : List ℕ
  debtFreeMonth : Option ℕ
  minCash : ℚ
  minCashMonth : ℕ
  goalAchievedMonth : List (Option ℕ)

/-- State before the month loop of `computeForecast`. -/
def initState (sc : ScenarioInput) : SimState :=
  { cash := sc.initialCash,
    debtStates := sc.debts.map (fun d =>
      { balance := d.balance, annualRate := d.annualRate,
        minPayment := d.minPayment, strategy := d.strategy, paidOff := false }),
    invValues := sc.investments.map (fun i => i.currentValue),
    snapshots := [],
    totalInterestPaid := 0,
    totalTaxPaid := 0,
    negativeCashMonths := [],
    debtFreeMonth := none,
    minCash := sc.initialCash,
    minCashMonth := 0,
    goalAchievedMonth := sc.goals.map (fun _ => none) }

/-- `preDebtCash = r2(cash + netIncome - totalExpenses + oneTimeNet)`. -/
def preDebtCashOf (sc : ScenarioInput) (m : ℕ) (cash : ℚ) : ℚ :=
  r2 (cash + netIncomeOf sc m - totalExpensesOf sc m + oneTimeNetOf sc m)

/-- `extraCash = Math.max(0, preDebtCash)`, shared by the whole debt loop. -/
def extraCashOf (sc : ScenarioInput) (m : ℕ) (cash : ℚ) : ℚ :=
  max 0 (preDebtCashOf sc m cash)

/-- The month's debt-loop results. -/
def dpOf (sc : ScenarioInput) (m : ℕ) (st : SimState) : DebtPhaseOut :=
  debtPhase st.debtStates (extraCashOf sc m st.cash)

/-- The month's investment-loop results. -/
def ipOf (sc : ScenarioInput) (st : SimState) : InvestPhaseOut :=
  investPhase sc.investments st.invValues

/-- `cash = r2(preDebtCash - totalDebtPayment - totalContrib)`. -/
def monthCashOf (sc : ScenarioInput) (m : ℕ) (st : SimState) : ℚ :=
  r2 (preDebtCashOf sc m st.cash - (dpOf sc m st).totalPayment -
      (ipOf sc st).totalContrib)

/-- `totalDebt` after the month's debt loop. -/
def monthTotalDebtOf (sc : ScenarioInput) (m : ℕ) (st : SimState) : ℚ :=
  r2 ((dpOf sc m st).states.foldl (fun s d => s + d.balance) 0)

/-- `totalInv` after the month's investment loop. -/
def monthTotalInvOf (sc : ScenarioInput) (st : SimState) : ℚ :=
  r2 ((ipOf sc st).values.foldl (fun s v => s + v) 0)

/-- `netWorth = r2(cash + totalInv - totalDebt)`. -/
def monthNetWorthOf (sc : ScenarioInput) (m : ℕ) (st : SimState) : ℚ :=
  r2 (monthCashOf sc m st + monthTotalInvOf sc st - monthTotalDebtOf sc m st)

/-- The `MonthSnapshot` pushed for month `m`. -/
def monthSnapOf (sc : ScenarioInput) (m : ℕ) (st : SimState) : MonthSnapshot :=
  { month := m,
    cash := monthCashOf sc m st,
    netWorth := monthNetWorthOf sc m st,
    totalDebt := monthTotalDebtOf sc m st,
    totalInvestments := monthTotalInvOf sc st,
    totalIncome := netIncomeOf sc m,
    totalExpenses := totalExpensesOf sc m,
    totalDebtPayment := (dpOf sc m st).totalPayment,
    totalInvestmentContribution := (ipOf sc st).totalContrib }

/-- One iteration of the month loop of `computeForecast` (month index `m`). -/
def monthStep (sc : ScenarioInput) (m : ℕ) (st : SimState) : SimState :=
  { cash := monthCashOf sc m st,
    debtStates := (dpOf sc m st).states,
    invValues := (ipOf sc st).values,
    snapshots := st.snapshots ++ [monthSnapOf sc m st],
    totalInterestPaid := r2 (st.totalInterestPaid + (dpOf sc m st).totalInterest),
    totalTaxPaid := r2 (st.totalTaxPaid + taxOf sc m),
    negativeCashMonths :=
      if monthCashOf sc m st < 0 then st.negativeCashMonths ++ [m]
      else st.negativeCashMonths,
    debtFreeMonth :=
      match st.debtFreeMonth with
      | some d => some d
      | none =>
        if monthTotalDebtOf sc m st = 0 ∧ 0 < sc.debts.length then some m
        else none,
    minCash :=
      if monthCashOf sc m st < st.minCash then monthCashOf sc m st
      else st.minCash,
    minCashMonth :=
      if monthCashOf sc m st < st.minCash then m else st.minCashMonth,
    goalAchievedMonth :=
      goalUpdate m (monthCashOf sc m st) (monthNetWorthOf sc m st)
        (monthTotalInvOf sc st) (sc.goals.zip st.goalAchievedMonth) }

/-- The month loop after `t` iterations. -/
def simulateUpTo (sc : ScenarioInput) : ℕ → SimState
  | 0 => initState sc
  | t + 1 => monthStep sc t (simulateUpTo sc t)

/-- The completed month loop. -/
def simulate (sc : ScenarioInput) : SimState := simulateUpTo sc sc.months

/-- One `goalProgress` entry; `none` models the `TypeError` thrown when
`snapshots[Math.min(goal.targetMonth, snapshots.length - 1)]` is out of
range (empty snapshot list). -/
def goalProgressEntry (snaps : List MonthSnapshot) (achieved : Option ℕ)
    (g : FinancialGoal) : Option GoalProgress :=
  match snaps[min g.targetMonth (snaps.length - 1)]? with
  | none => none
  | some snap =>
    some { targetAmount := g.targetAmount,
           targetMonth := g.targetMonth,
           achievedMonth := achieved,
           endValue :=
             match g.gtype with
             | GoalType.savings => snap.cash
             | GoalType.netWorth => snap.netWorth
             | GoalType.investment => snap.totalInvestments,
           onTrack :=
             match achieved with
             | some a => decide (a ≤ g.targetMonth)
             | none => false }

/-- All `goalProgress` entries, failing if any entry fails. -/
def goalProgressAll (snaps : List MonthSnapshot) :
    List (FinancialGoal × Option ℕ) → Option (List GoalProgress)
  | [] => some []
  | p :: rest =>
    match goalProgressEntry snaps p.2 p.1, goalProgressAll snaps rest with
    | some e, some l => some (e :: l)
    | _, _ => none

/-- `computeForecast` from `lib/forecast.ts`.  `none` models the
`TypeError` thrown by `snapshots[snapshots.length - 1].cash` (and by the
goal-progress snapshot lookup) when the snapshot list is empty. -/
def computeForecast (sc : ScenarioInput) : Option ForecastResult :=
  let st := simulate sc
  match st.snapshots.getLast? with
  | none => none
  | some last =>
    match goalProgressAll st.snapshots (sc.goals.zip st.goalAchievedMonth) with
    | none => none
    | some gp =>
      some { snapshots := st.snapshots,
             summary :=
               { endCash := last.cash,
                 endNetWorth := last.netWorth,
                 minCash := st.minCash,
                 minCashMonth := st.minCashMonth,
                 negativeCashMonths := st.negativeCashMonths,
                 debtFreeMonth := st.debtFreeMonth,
                 totalInterestPaid := st.totalInterestPaid,
                 endInvestmentValue := last.totalInvestments,
                 totalTaxPaid := st.totalTaxPaid },
             goalProgress := gp }

-- ── Heuristic advisor (`lib/heuristic-advisor.ts`) ────────────────────────

inductive AlertType
  | cash
  | debt
  | rent
  | fx
  | portf
deriving DecidableEq

structure Alert where
  atype : AlertType
  monthIndex : ℤ

inductive Confidence
  | low
  | med
  | high
deriving DecidableEq

/-- Insight identity, standing in for the generated title string. -/
inductive InsightKind
  | projectedNetWorth
  | debtFree
  | negativeCashCount
  | investmentContrib
  | cashFlowStable
deriving DecidableEq

structure Insight where
  kind : InsightKind
  impact : ℚ
  confidence : Confidence

inductive ActionId
  | aggressiveDebt
  | reduceDiscretionary
  | boostInvestments
deriving DecidableEq

/-- Advisor action; the `changes` payload is presentation data and is not
modelled beyond the expected-outcome deltas. -/
structure AdvisorAction where
  id : ActionId
  netWorthDelta : ℚ
  minCashDelta : ℚ

structure AdvisorResponse where
  insights : List Insight
  alerts : List Alert
  actions : List AdvisorAction

/-- One `cash` alert per reported negative month; the message reads
`snapshots[m].cash`, so an out-of-range month throws (`none`). -/
def cashAlerts (snaps : List MonthSnapshot) : List ℕ → Option (List Alert)
  | [] => some []
  | m :: ms =>
    match snaps[m]?, cashAlerts snaps ms with
    | some _, some rest =>
        some ({ atype := AlertType.cash, monthIndex := (m : ℤ) } :: rest)
    | _, _ => none

/-- At most one expense-spike alert: first `i ≥ 1` with a month-over-month
increase above 20%. -/
def spikeAlert (snaps : List MonthSnapshot) : List Alert :=
  match (List.range snaps.length).find? (fun i =>
    decide (1 ≤ i) &&
      match snaps.get? (i - 1), snaps.get? i with
      | some p, some c =>
          decide (0 < p.totalExpenses ∧
            (c.totalExpenses - p.totalExpenses) / p.totalExpenses > 1 / 5)
      | _, _ => false) with
  | some i => [{ atype := AlertType.rent, monthIndex := (i : ℤ) }]
  | none => []

/-- `totalDebt` as the advisor computes it from the scenario. -/
def totalDebtOf (sc : ScenarioInput) : ℚ :=
  r2 (sc.debts.foldl (fun s d => s + d.balance) 0)

/-- The advisor's rough annualised interest estimate. -/
def totalInterestEstimateOf (sc : ScenarioInput) : ℚ :=
  r2 (sc.debts.foldl (fun s d => s + d.balance * (d.annualRate / 100)) 0)

/-- Average of the first three months' total expenses. -/
def monthlyExpensesAvgOf (fc : ForecastResult) : ℚ :=
  if 0 < fc.snapshots.length then
    r2 ((fc.snapshots.take 3).foldl (fun s sn => s + sn.totalExpenses) 0 /
        ((min 3 fc.snapshots.length : ℕ) : ℚ))
  else 0

/-- `emergencyTarget = r2(monthlyExpenses * emergencyFundMonths)`. -/
def emergencyTargetOf (fc : ForecastResult) (emergencyFundMonths : ℚ) : ℚ :=
  r2 (monthlyExpensesAvgOf fc * emergencyFundMonths)

/-- The `debt` alert, emitted when the interest estimate is positive. -/
def debtAlertListOf (sc : ScenarioInput) : List Alert :=
  if 0 < totalInterestEstimateOf sc then
    [{ atype := AlertType.debt, monthIndex := (0 : ℤ) }]
  else []

/-- The emergency-buffer `cash` alert. -/
def emergencyAlertListOf (fc : ForecastResult) (emergencyFundMonths : ℚ) :
    List Alert :=
  if fc.summary.endCash < emergencyTargetOf fc emergencyFundMonths then
    [{ atype := AlertType.cash, monthIndex := (fc.snapshots.length : ℤ) - 1 }]
  else []

/-- The insights accumulated before the filler rule. -/
def preInsightsOf (sc : ScenarioInput) (fc : ForecastResult) : List Insight :=
  [{ kind := InsightKind.projectedNetWorth, impact := fc.summary.endNetWorth,
     confidence := Confidence.high }] ++
  (match fc.summary.debtFreeMonth with
   | some _ =>
      [{ kind := InsightKind.debtFree, impact := totalInterestEstimateOf sc,
         confidence := Confidence.med }]
   | none => []) ++
  (if 0 < fc.summary.negativeCashMonths.length then
    [{ kind := InsightKind.negativeCashCount, impact := r2 fc.summary.minCash,
       confidence := Confidence.high }]
   else []) ++
  (if 0 < sc.investments.length then
    [{ kind := InsightKind.investmentContrib,
       impact := fc.summary.endInvestmentValue,
       confidence := Confidence.med }]
   else [])

/-- The generic "cash flow stable" filler insight. -/
def fillerInsight (fc : ForecastResult) : Insight :=
  { kind := InsightKind.cashFlowStable, impact := fc.summary.minCash,
    confidence := Confidence.med }

/-- Insight list after the filler rule (before the final `.slice(0, 6)`). -/
def insightsOf (sc : ScenarioInput) (fc : ForecastResult) : List Insight :=
  if (preInsightsOf sc fc).length < 3 then
    preInsightsOf sc fc ++ [fillerInsight fc]
  else preInsightsOf sc fc

/-- The `aggressive-debt` action; reads `debts[0].minPayment` when offered. -/
def aggressiveActionsOf (sc : ScenarioInput) : Option (List AdvisorAction) :=
  if 0 < totalDebtOf sc ∧
      sc.debts.any (fun d => decide (d.strategy ≠ DebtStrategy.aggressive)) then
    match sc.debts.head? with
    | some d0 =>
        some [{ id := ActionId.aggressiveDebt,
                netWorthDelta := r2 (totalInterestEstimateOf sc * (4 / 10)),
                minCashDelta := r2 (-d0.minPayment * (3 / 10)) }]
    | none => none
  else some []

/-- The `reduce-discretionary` action. -/
def discActionsOf (sc : ScenarioInput) (fc : ForecastResult) :
    List AdvisorAction :=
  let disc := sc.expenses.filter
    (fun e => decide (e.category = ExpenseCategory.discretionary))
  if 0 < disc.length ∧ 0 < fc.summary.negativeCashMonths.length then
    let totalDisc := r2 (disc.foldl (fun s e => s + e.amount) 0)
    let cut := r2 (totalDisc * (15 / 100))
    [{ id := ActionId.reduceDiscretionary,
       netWorthDelta := r2 (cut * (sc.months : ℚ)),
       minCashDelta := r2 cut }]
  else []

/-- The `boost-investments` action; reads `investments[0]` when offered. -/
def boostActionsOf (sc : ScenarioInput) : Option (List AdvisorAction) :=
  if 0 < sc.investments.length then
    match sc.investments.head? with
    | some firstInv =>
        some [{ id := ActionId.boostInvestments,
                netWorthDelta := r2 (firstInv.monthlyContribution * (1 / 10) *
                  (sc.months : ℚ) * (13 / 10)),
                minCashDelta := r2 (-(firstInv.monthlyContribution * (1 / 10))) }]
    | none => none
  else some []

/-- `runHeuristicAdvisor` from `lib/heuristic-advisor.ts`; `none` models a
thrown `TypeError` on out-of-range snapshot access. -/
def runHeuristicAdvisor (sc : ScenarioInput) (fc : ForecastResult)
    (emergencyFundMonths : ℚ) : Option AdvisorResponse :=
  match cashAlerts fc.snapshots (fc.summary.negativeCashMonths.take 5),
      aggressiveActionsOf sc, boostActionsOf sc with
  | some negAlerts, some aggrList, some boostList =>
      some { insights := (insightsOf sc fc).take 6,
             alerts := negAlerts ++ spikeAlert fc.snapshots ++
               debtAlertListOf sc ++ emergencyAlertListOf fc emergencyFundMonths,
             actions := aggrList ++ discActionsOf sc fc ++ boostList }
  | _, _, _ => none

-- ── Arithmetic facts about the 2-decimal rounding `r2` ────────────────────

theorem r2_zero : r2 0 = 0 := by norm_num [r2]

theorem r2_of_mul_int (q : ℚ) (n : ℤ) (h : q * 100 = (n : ℚ)) : r2 q = q := by
  unfold r2
  rw [h, Int.floor_int_add]
  have h2 : Int.floor ((1 : ℚ) / 2) = 0 := by norm_num
  rw [h2]
  push_cast
  field_simp
  linarith

theorem r2_mul_100_int (q : ℚ) :
    r2 q * 100 = ((Int.floor (q * 100 + 1 / 2) : ℤ) : ℚ) := by
  unfold r2
  field_simp

theorem r2_r2 (q : ℚ) : r2 (r2 q) = r2 q :=
  r2_of_mul_int _ _ (r2_mul_100_int q)

/-- A rational carrying at most 2 decimal digits. -/
def TwoDp (q : ℚ) : Prop := ∃ n : ℤ, q * 100 = (n : ℚ)

theorem TwoDp.r2_eq {q : ℚ} (h : TwoDp q) : r2 q = q := by
  obtain ⟨n, hn⟩ := h
  exact r2_of_mul_int q n hn

theorem twoDp_r2 (q : ℚ) : TwoDp (r2 q) :=
  ⟨Int.floor (q * 100 + 1 / 2), r2_mul_100_int q⟩

theorem twoDp_of_r2_eq {q : ℚ} (h : r2 q = q) : TwoDp q := h ▸ twoDp_r2 q

theorem TwoDp.add {a b : ℚ} (ha : TwoDp a) (hb : TwoDp b) : TwoDp (a + b) := by
  obtain ⟨m, hm⟩ := ha
  obtain ⟨n, hn⟩ := hb
  exact ⟨m + n, by push_cast; linarith⟩

theorem TwoDp.sub {a b : ℚ} (ha : TwoDp a) (hb : TwoDp b) : TwoDp (a - b) := by
  obtain ⟨m, hm⟩ := ha
  obtain ⟨n, hn⟩ := hb
  exact ⟨m - n, by push_cast; linarith⟩

theorem twoDp_intCast (n : ℤ) : TwoDp (n : ℚ) := ⟨n * 100, by push_cast; ring⟩

-- ── List-fold characterisations ───────────────────────────────────────────

theorem foldl_add_eq_sum {α : Type} (f : α → ℚ) (l : List α) (a : ℚ) :
    l.foldl (fun s x => s + f x) a = a + (l.map f).sum := by
  induction l generalizing a with
  | nil => simp
  | cons x xs ih => simp [List.foldl_cons, ih, add_assoc]

theorem r2_foldl_r2add (l : List ℚ) (a : ℚ) (ha : r2 a = a) :
    r2 (l.foldl (fun s p => r2 (s + p)) a) = l.foldl (fun s p => r2 (s + p)) a := by
  induction l generalizing a with
  | nil => simpa
  | cons x xs ih => exact ih _ (r2_r2 _)

theorem debtPhase_foldl (e : ℚ) (ds : List DebtState) (acc : DebtPhaseOut) :
    ds.foldl
      (fun acc d =>
        let r := stepDebt d e
        { states := acc.states ++ [debtUpdate d e],
          totalPayment := r2 (acc.totalPayment + r.payment),
          totalInterest := r2 (acc.totalInterest + r.interest) }) acc =
    { states := acc.states ++ ds.map (fun d => debtUpdate d e),
      totalPayment := (ds.map (fun d => (stepDebt d e).payment)).foldl
        (fun s p => r2 (s + p)) acc.totalPayment,
      totalInterest := (ds.map (fun d => (stepDebt d e).interest)).foldl
        (fun s p => r2 (s + p)) acc.totalInterest } := by
  induction ds generalizing acc with
  | nil => simp
  | cons d rest ih => simp [List.foldl_cons, ih]

theorem debtPhase_states (ds : List DebtState) (e : ℚ) :
    (debtPhase ds e).states = ds.map (fun d => debtUpdate d e) := by
  unfold debtPhase
  rw [debtPhase_foldl]
  simp

theorem debtPhase_totalPayment (ds : List DebtState) (e : ℚ) :
    (debtPhase ds e).totalPayment =
      (ds.map (fun d => (stepDebt d e).payment)).foldl (fun s p => r2 (s + p)) 0 := by
  unfold debtPhase
  rw [debtPhase_foldl]

theorem debtPhase_totalInterest (ds : List DebtState) (e : ℚ) :
    (debtPhase ds e).totalInterest =
      (ds.map (fun d => (stepDebt d e).interest)).foldl (fun s p => r2 (s + p)) 0 := by
  unfold debtPhase
  rw [debtPhase_foldl]

theorem investPhase_foldl (l : List (InvestmentInput × ℚ)) (acc : InvestPhaseOut) :
    l.foldl
      (fun acc p =>
        { values := acc.values ++
            [stepInvestment p.2 p.1.monthlyContribution p.1.expectedAnnualReturn],
          totalContrib := r2 (acc.totalContrib + p.1.monthlyContribution) }) acc =
    { values := acc.values ++ l.map
        (fun p => stepInvestment p.2 p.1.monthlyContribution p.1.expectedAnnualReturn),
      totalContrib := (l.map (fun p => p.1.monthlyContribution)).foldl
        (fun s p => r2 (s + p)) acc.totalContrib } := by
  induction l generalizing acc with
  | nil => simp
  | cons p rest ih => simp [List.foldl_cons, ih]

theorem investPhase_values (invs : List InvestmentInput) (vals : List ℚ) :
    (investPhase invs vals).values = (invs.zip vals).map
      (fun p => stepInvestment p.2 p.1.monthlyContribution p.1.expectedAnnualReturn) := by
  unfold investPhase
  rw [investPhase_foldl]
  simp

theorem investPhase_totalContrib (invs : List InvestmentInput) (vals : List ℚ) :
    (investPhase invs vals).totalContrib =
      ((invs.zip vals).map (fun p => p.1.monthlyContribution)).foldl
        (fun s p => r2 (s + p)) 0 := by
  unfold investPhase
  rw [investPhase_foldl]

-- ── Simulation-loop invariants ────────────────────────────────────────────

theorem simulateUpTo_zero (sc : ScenarioInput) :
    simulateUpTo sc 0 = initState sc := rfl

theorem simulateUpTo_succ (sc : ScenarioInput) (t : ℕ) :
    simulateUpTo sc (t + 1) = monthStep sc t (simulateUpTo sc t) := rfl

theorem monthStep_snapshots (sc : ScenarioInput) (m : ℕ) (st : SimState) :
    (monthStep sc m st).snapshots = st.snapshots ++ [monthSnapOf sc m st] := rfl

theorem monthSnapOf_month (sc : ScenarioInput) (m : ℕ) (st : SimState) :
    (monthSnapOf sc m st).month = m := rfl

theorem monthSnapOf_cash (sc : ScenarioInput) (m : ℕ) (st : SimState) :
    (monthSnapOf sc m st).cash = monthCashOf sc m st := rfl

theorem snapshots_length (sc : ScenarioInput) (t : ℕ) :
    (simulateUpTo sc t).snapshots.length = t := by
  induction t with
  | zero => rfl
  | succ t ih => rw [simulateUpTo_succ, monthStep_snapshots]; simp [ih]

theorem snap_month_of_getElem (sc : ScenarioInput) (t : ℕ) :
    ∀ (k : ℕ) (snap : MonthSnapshot),
      (simulateUpTo sc t).snapshots[k]? = some snap → snap.month = k := by
  induction t with
  | zero => intro k snap h; simp [simulateUpTo_zero, initState] at h
  | succ t ih =>
    intro k snap h
    rw [simulateUpTo_succ, monthStep_snapshots] at h
    by_cases hk : k < (simulateUpTo sc t).snapshots.length
    · rw [List.getElem?_append_left hk] at h
      exact ih k snap h
    · push_neg at hk
      rcases eq_or_lt_of_le hk with heq | hlt
      · have hcl := List.getElem?_concat_length (simulateUpTo sc t).snapshots
          (monthSnapOf sc t (simulateUpTo sc t))
        rw [heq] at hcl
        rw [hcl] at h
        have hsnap : snap = monthSnapOf sc t (simulateUpTo sc t) :=
          (Option.some.inj h).symm
        rw [hsnap, monthSnapOf_month, ← heq, snapshots_length]
      · have hlen :
            ((simulateUpTo sc t).snapshots ++
              [monthSnapOf sc t (simulateUpTo sc t)]).length ≤ k := by
          simp [Nat.succ_le_of_lt hlt]
        rw [List.getElem?_eq_none hlen] at h
        cases h

theorem getElem_of_mem_snapshots (sc : ScenarioInput) (t : ℕ) :
    ∀ snap ∈ (simulateUpTo sc t).snapshots,
      (simulateUpTo sc t).snapshots[snap.month]? = some snap := by
  induction t with
  | zero => intro snap h; simp [simulateUpTo_zero, initState] at h
  | succ t ih =>
    intro snap hmem
    rw [simulateUpTo_succ, monthStep_snapshots] at hmem ⊢
    rcases List.mem_append.mp hmem with hp | hn
    · have ih' := ih snap hp
      have hlt : snap.month < (simulateUpTo sc t).snapshots.length := by
        rcases List.getElem?_eq_some.mp ih' with ⟨hw, _⟩
        exact hw
      rw [List.getElem?_append_left hlt]
      exact ih'
    · have hs : snap = monthSnapOf sc t (simulateUpTo sc t) := by simpa using hn
      have hcl := List.getElem?_concat_length (simulateUpTo sc t).snapshots
        (monthSnapOf sc t (simulateUpTo sc t))
      rw [snapshots_length] at hcl
      rw [hs, monthSnapOf_month]
      exact hcl

theorem negCash_eq_filter (sc : ScenarioInput) (t : ℕ) :
    (simulateUpTo sc t).negativeCashMonths =
      ((simulateUpTo sc t).snapshots.filter (fun s => decide (s.cash < 0))).map
        (fun s => s.month) := by
  induction t with
  | zero => rfl
  | succ t ih =>
    rw [simulateUpTo_succ]
    by_cases h : monthCashOf sc t (simulateUpTo sc t) < 0 <;>
      simp [monthStep, monthSnapOf, List.filter_append, h, ih]

theorem minCash_eq_foldl (sc : ScenarioInput) (t : ℕ) :
    (simulateUpTo sc t).minCash =
      ((simulateUpTo sc t).snapshots.map (fun s => s.cash)).foldl min
        sc.initialCash := by
  induction t with
  | zero => rfl
  | succ t ih =>
    rw [simulateUpTo_succ, monthStep_snapshots]
    show (if monthCashOf sc t (simulateUpTo sc t) < (simulateUpTo sc t).minCash
        then monthCashOf sc t (simulateUpTo sc t) else (simulateUpTo sc t).minCash) = _
    rw [List.map_append, List.foldl_append]
    simp only [List.map_cons, List.map_nil, List.foldl_cons, List.foldl_nil,
      monthSnapOf_cash]
    rw [ih]
    rcases lt_or_ge (monthCashOf sc t (simulateUpTo sc t))
        (((simulateUpTo sc t).snapshots.map (fun s => s.cash)).foldl min
          sc.initialCash) with h | h
    · rw [if_pos h, min_eq_right (le_of_lt h)]
    · rw [if_neg (not_lt.mpr h), min_eq_left h]

theorem minCash_of_all_ge (sc : ScenarioInput) (t : ℕ)
    (h : ∀ s ∈ (simulateUpTo sc t).snapshots, sc.initialCash ≤ s.cash) :
    (simulateUpTo sc t).minCash = sc.initialCash ∧
      (simulateUpTo sc t).minCashMonth = 0 := by
  induction t with
  | zero => exact ⟨rfl, rfl⟩
  | succ t ih =>
    rw [simulateUpTo_succ, monthStep_snapshots] at h
    have hprev : ∀ s ∈ (simulateUpTo sc t).snapshots, sc.initialCash ≤ s.cash :=
      fun s hs => h s (List.mem_append_left _ hs)
    obtain ⟨hmc, hmm⟩ := ih hprev
    have hnew : sc.initialCash ≤ monthCashOf sc t (simulateUpTo sc t) := by
      have := h (monthSnapOf sc t (simulateUpTo sc t))
        (List.mem_append_right _ (List.mem_singleton_self _))
      simpa [monthSnapOf_cash] using this
    have hnot : ¬ monthCashOf sc t (simulateUpTo sc t) < (simulateUpTo sc t).minCash := by
      rw [hmc]; exact not_lt.mpr hnew
    rw [simulateUpTo_succ]
    constructor
    · show (if monthCashOf sc t (simulateUpTo sc t) < (simulateUpTo sc t).minCash
        then monthCashOf sc t (simulateUpTo sc t) else (simulateUpTo sc t).minCash) =
          sc.initialCash
      rw [if_neg hnot, hmc]
    · show (if monthCashOf sc t (simulateUpTo sc t) < (simulateUpTo sc t).minCash
        then t else (simulateUpTo sc t).minCashMonth) = 0
      rw [if_neg hnot, hmm]

/-- All monetary fields of a snapshot are fixed points of `r2`. -/
def SnapRounded (s : MonthSnapshot) : Prop :=
  r2 s.cash = s.cash ∧ r2 s.netWorth = s.netWorth ∧
  r2 s.totalDebt = s.totalDebt ∧ r2 s.totalInvestments = s.totalInvestments ∧
  r2 s.totalIncome = s.totalIncome ∧ r2 s.totalExpenses = s.totalExpenses ∧
  r2 s.totalDebtPayment = s.totalDebtPayment ∧
  r2 s.totalInvestmentContribution = s.totalInvestmentContribution

theorem monthSnapOf_rounded (sc : ScenarioInput) (m : ℕ) (st : SimState) :
    SnapRounded (monthSnapOf sc m st) := by
  refine ⟨r2_r2 _, r2_r2 _, r2_r2 _, r2_r2 _, r2_r2 _, r2_r2 _, ?_, ?_⟩
  · show r2 (dpOf sc m st).totalPayment = (dpOf sc m st).totalPayment
    unfold dpOf
    rw [debtPhase_totalPayment]
    exact r2_foldl_r2add _ _ r2_zero
  · show r2 (ipOf sc st).totalContrib = (ipOf sc st).totalContrib
    unfold ipOf
    rw [investPhase_totalContrib]
    exact r2_foldl_r2add _ _ r2_zero

theorem snapshots_rounded (sc : ScenarioInput) (t : ℕ) :
    ∀ s ∈ (simulateUpTo sc t).snapshots, SnapRounded s := by
  induction t with
  | zero => intro s h; simp [simulateUpTo_zero, initState] at h
  | succ t ih =>
    intro s hs
    rw [simulateUpTo_succ, monthStep_snapshots] at hs
    rcases List.mem_append.mp hs with hp | hn
    · exact ih s hp
    · have : s = monthSnapOf sc t (simulateUpTo sc t) := by simpa using hn
      rw [this]
      exact monthSnapOf_rounded sc t (simulateUpTo sc t)

-- ── `computeForecast`: success and inversion ──────────────────────────────

theorem goalProgressEntry_isSome (snaps : List MonthSnapshot) (a : Option ℕ)
    (g : FinancialGoal) (h : 0 < snaps.length) :
    (goalProgressEntry snaps a g).isSome := by
  unfold goalProgressEntry
  have hlt : min g.targetMonth (snaps.length - 1) < snaps.length :=
    lt_of_le_of_lt (min_le_right _ _) (Nat.sub_lt h Nat.one_pos)
  rw [List.getElem?_eq_getElem hlt]
  rfl

theorem goalProgressAll_isSome (snaps : List MonthSnapshot)
    (h : 0 < snaps.length) :
    ∀ l : List (FinancialGoal × Option ℕ), (goalProgressAll snaps l).isSome := by
  intro l
  induction l with
  | nil => rfl
  | cons p rest ih =>
    unfold goalProgressAll
    obtain ⟨e, he⟩ := Option.isSome_iff_exists.mp
      (goalProgressEntry_isSome snaps p.2 p.1 h)
    obtain ⟨ll, hll⟩ := Option.isSome_iff_exists.mp ih
    rw [he, hll]
    rfl

theorem computeForecast_some (sc : ScenarioInput) (h : 0 < sc.months) :
    ∃ fr, computeForecast sc = some fr := by
  have hlen : (simulate sc).snapshots.length = sc.months := snapshots_length sc sc.months
  have hpos : 0 < (simulate sc).snapshots.length := by rw [hlen]; exact h
  have hne : (simulate sc).snapshots ≠ [] := List.ne_nil_of_length_pos hpos
  obtain ⟨last, hl⟩ := Option.isSome_iff_exists.mp (List.getLast?_isSome.mpr hne)
  obtain ⟨gp, hgp⟩ := Option.isSome_iff_exists.mp
    (goalProgressAll_isSome _ hpos ((sc.goals.zip (simulate sc).goalAchievedMonth)))
  have hs : (computeForecast sc).isSome := by
    simp only [computeForecast, hl, hgp]
    rfl
  exact Option.isSome_iff_exists.mp hs

theorem computeForecast_inv (sc : ScenarioInput) (fr : ForecastResult)
    (h : computeForecast sc = some fr) :
    fr.snapshots = (simulate sc).snapshots ∧
    fr.summary.minCash = (simulate sc).minCash ∧
    fr.summary.minCashMonth = (simulate sc).minCashMonth ∧
    fr.summary.negativeCashMonths = (simulate sc).negativeCashMonths := by
  simp only [computeForecast] at h
  rcases hg : (simulate sc).snapshots.getLast? with _ | last
  · simp only [hg] at h
    exact Option.noConfusion h
  · simp only [hg] at h
    rcases hgp : goalProgressAll (simulate sc).snapshots
        (sc.goals.zip (simulate sc).goalAchievedMonth) with _ | gp
    · simp only [hgp] at h
      exact Option.noConfusion h
    · simp only [hgp, Option.some.injEq] at h
      rw [← h]
      exact ⟨rfl, rfl, rfl, rfl⟩

-- ── Constant-flow scenarios (no debts, no investments, no growth) ─────────

theorem TwoDp.natMul {q : ℚ} (t : ℕ) (h : TwoDp q) : TwoDp ((t : ℚ) * q) := by
  obtain ⟨n, hn⟩ := h
  exact ⟨t * n, by push_cast; rw [mul_assoc, hn]⟩

theorem constFlow_netIncome (sc : ScenarioInput) (inc : IncomeInput)
    (hin : sc.incomes = [inc]) (htax : sc.taxRate = 0)
    (histart : inc.startMonth = 0) (hiend : inc.endMonth = none)
    (higr : inc.growthRate = 0) (hI : r2 inc.amount = inc.amount) (m : ℕ) :
    netIncomeOf sc m = inc.amount := by
  have hmi : monthlyIncome inc m = inc.amount := by
    unfold monthlyIncome
    rw [histart, hiend, higr]
    simp [pastEnd]
    norm_num [hI]
  have hg : grossIncomeOf sc m = inc.amount := by
    unfold grossIncomeOf
    rw [hin]
    simp [List.foldl_cons, List.foldl_nil, hmi, hI]
  unfold netIncomeOf taxOf
  rw [hg, htax]
  norm_num [r2_zero, hI]

theorem constFlow_totalExpenses (sc : ScenarioInput) (e : ExpenseInput)
    (hex : sc.expenses = [e]) (hinfl : sc.inflationRate = 0)
    (hestart : e.startMonth = 0) (heend : e.endMonth = none)
    (hegr : e.growthRate = 0) (heone : e.isOneTime = false)
    (hE : r2 e.amount = e.amount) (m : ℕ) :
    totalExpensesOf sc m = e.amount := by
  have hme : monthlyExpense e m = e.amount := by
    unfold monthlyExpense
    rw [hestart, heend, hegr, heone]
    simp [pastEnd]
    norm_num [hE]
  unfold totalExpensesOf inflationMultiplierOf
  rw [hex, hinfl]
  simp [List.foldl_cons, List.foldl_nil, hme, hE]

theorem oneTimeNetOf_nil (sc : ScenarioInput) (h : sc.oneTimeEvents = []) (m : ℕ) :
    oneTimeNetOf sc m = 0 := by
  unfold oneTimeNetOf
  rw [h]
  simp [r2_zero]

theorem constFlow_monthCash (sc : ScenarioInput) (inc : IncomeInput)
    (e : ExpenseInput) (hin : sc.incomes = [inc]) (hex : sc.expenses = [e])
    (hinvs : sc.investments = []) (hinfl : sc.inflationRate = 0)
    (htax : sc.taxRate = 0) (hote : sc.oneTimeEvents = [])
    (histart : inc.startMonth = 0) (hiend : inc.endMonth = none)
    (higr : inc.growthRate = 0) (hestart : e.startMonth = 0)
    (heend : e.endMonth = none) (hegr : e.growthRate = 0)
    (heone : e.isOneTime = false) (hI : r2 inc.amount = inc.amount)
    (hE : r2 e.amount = e.amount) (m : ℕ) (st : SimState)
    (hds : st.debtStates = []) (hcash : TwoDp st.cash) :
    monthCashOf sc m st = st.cash + inc.amount - e.amount := by
  have hpre : preDebtCashOf sc m st.cash = st.cash + inc.amount - e.amount := by
    unfold preDebtCashOf
    rw [constFlow_netIncome sc inc hin htax histart hiend higr hI m,
      constFlow_totalExpenses sc e hex hinfl hestart heend hegr heone hE m,
      oneTimeNetOf_nil sc hote m, add_zero]
    exact ((hcash.add (twoDp_of_r2_eq hI)).sub (twoDp_of_r2_eq hE)).r2_eq
  unfold monthCashOf dpOf ipOf
  rw [hds, hinvs, hpre]
  show r2 (st.cash + inc.amount - e.amount - (0 : ℚ) - (0 : ℚ)) = _
  rw [sub_zero, sub_zero]
  exact ((hcash.add (twoDp_of_r2_eq hI)).sub (twoDp_of_r2_eq hE)).r2_eq

theorem constFlow_sim (sc : ScenarioInput) (inc : IncomeInput)
    (e : ExpenseInput) (hin : sc.incomes = [inc]) (hex : sc.expenses = [e])
    (hdebts : sc.debts = []) (hinvs : sc.investments = [])
    (hinfl : sc.inflationRate = 0) (htax : sc.taxRate = 0)
    (hote : sc.oneTimeEvents = []) (histart : inc.startMonth = 0)
    (hiend : inc.endMonth = none) (higr : inc.growthRate = 0)
    (hestart : e.startMonth = 0) (heend : e.endMonth = none)
    (hegr : e.growthRate = 0) (heone : e.isOneTime = false)
    (hI : r2 inc.amount = inc.amount) (hE : r2 e.amount = e.amount)
    (hC : r2 sc.initialCash = sc.initialCash) : ∀ t : ℕ,
    (simulateUpTo sc t).debtStates = [] ∧
    (simulateUpTo sc t).cash =
      sc.initialCash + (t : ℚ) * (inc.amount - e.amount) ∧
    (simulateUpTo sc t).snapshots.map (fun s => s.cash) =
      (List.range t).map
        (fun k : ℕ => sc.initialCash + ((k : ℚ) + 1) * (inc.amount - e.amount)) := by
  intro t
  induction t with
  | zero =>
    refine ⟨?_, ?_, ?_⟩
    · show sc.debts.map _ = []
      rw [hdebts]; rfl
    · show sc.initialCash = _
      push_cast
      ring
    · rfl
  | succ t ih =>
    obtain ⟨hds, hc, hsn⟩ := ih
    have hTwo : TwoDp (simulateUpTo sc t).cash := by
      rw [hc]
      exact (twoDp_of_r2_eq hC).add
        (TwoDp.natMul t ((twoDp_of_r2_eq hI).sub (twoDp_of_r2_eq hE)))
    have hmc : monthCashOf sc t (simulateUpTo sc t) =
        (simulateUpTo sc t).cash + inc.amount - e.amount :=
      constFlow_monthCash sc inc e hin hex hinvs hinfl htax hote histart hiend
        higr hestart heend hegr heone hI hE t (simulateUpTo sc t) hds hTwo
    refine ⟨?_, ?_, ?_⟩
    · show (dpOf sc t (simulateUpTo sc t)).states = []
      unfold dpOf
      rw [hds]
      rfl
    · show monthCashOf sc t (simulateUpTo sc t) = _
      rw [hmc, hc]
      push_cast
      ring
    · rw [simulateUpTo_succ, monthStep_snapshots, List.map_append, hsn,
        List.range_succ, List.map_append]
      simp only [List.map_cons, List.map_nil, monthSnapOf_cash]
      rw [hmc, hc]
      have : sc.initialCash + (t : ℚ) * (inc.amount - e.amount) + inc.amount -
          e.amount = sc.initialCash + ((t : ℚ) + 1) * (inc.amount - e.amount) := by
        ring
      rw [this]

-- ── Concrete witness scenarios ────────────────────────────────────────────

theorem netIncomeOf_nil (sc : ScenarioInput) (h : sc.incomes = []) (m : ℕ) :
    netIncomeOf sc m = 0 := by
  have hg : grossIncomeOf sc m = 0 := by
    unfold grossIncomeOf
    rw [h]
    simp [r2_zero]
  unfold netIncomeOf taxOf
  rw [hg]
  norm_num [r2_zero]

theorem totalExpensesOf_nil (sc : ScenarioInput) (h : sc.expenses = []) (m : ℕ) :
    totalExpensesOf sc m = 0 := by
  unfold totalExpensesOf
  rw [h]
  simp [r2_zero]

def incW : IncomeInput :=
  { amount := 100, startMonth := 0, endMonth := none, growthRate := 0 }

def expW : ExpenseInput :=
  { amount := 50, category := ExpenseCategory.fixed, startMonth := 0,
    endMonth := none, growthRate := 0, isOneTime := false }

/-- One-month scenario: start at 0 cash, earn 100, spend 50. -/
def exW : ScenarioInput :=
  { months := 1, initialCash := 0, incomes := [incW], expenses := [expW],
    debts := [], investments := [], inflationRate := 0, taxRate := 0,
    oneTimeEvents := [], goals := [] }

def snapW : MonthSnapshot :=
  { month := 0, cash := 50, netWorth := 50, totalDebt := 0,
    totalInvestments := 0, totalIncome := 100, totalExpenses := 50,
    totalDebtPayment := 0, totalInvestmentContribution := 0 }

def frW : ForecastResult :=
  { snapshots := [snapW],
    summary := { endCash := 50, endNetWorth := 50, minCash := 0,
                 minCashMonth := 0, negativeCashMonths := [],
                 debtFreeMonth := none, totalInterestPaid := 0,
                 endInvestmentValue := 0, totalTaxPaid := 0 },
    goalProgress := [] }

theorem exW_simulate : simulate exW =
    { cash := 50, debtStates := [], invValues := [], snapshots := [snapW],
      totalInterestPaid := 0, totalTaxPaid := 0, negativeCashMonths := [],
      debtFreeMonth := none, minCash := 0, minCashMonth := 0,
      goalAchievedMonth := [] } := by
  have hni : netIncomeOf exW 0 = 100 :=
    constFlow_netIncome exW incW rfl rfl rfl rfl rfl (by norm_num [r2, incW]) 0
  have hte : totalExpensesOf exW 0 = 50 :=
    constFlow_totalExpenses exW expW rfl rfl rfl rfl rfl rfl (by norm_num [r2, expW]) 0
  have hot : oneTimeNetOf exW 0 = 0 := oneTimeNetOf_nil exW rfl 0
  have hdp : dpOf exW 0 (initState exW) =
      { states := [], totalPayment := 0, totalInterest := 0 } := rfl
  have hip : ipOf exW (initState exW) = { values := [], totalContrib := 0 } := rfl
  have hpre : preDebtCashOf exW 0 (initState exW).cash = 50 := by
    show preDebtCashOf exW 0 0 = 50
    unfold preDebtCashOf
    rw [hni, hte, hot]
    norm_num [r2]
  have hmc : monthCashOf exW 0 (initState exW) = 50 := by
    unfold monthCashOf
    rw [hdp, hip, hpre]
    norm_num [r2]
  have htd : monthTotalDebtOf exW 0 (initState exW) = 0 := by
    unfold monthTotalDebtOf
    rw [hdp]
    simp [r2_zero]
  have hti : monthTotalInvOf exW (initState exW) = 0 := by
    unfold monthTotalInvOf
    rw [hip]
    simp [r2_zero]
  have hnw : monthNetWorthOf exW 0 (initState exW) = 50 := by
    unfold monthNetWorthOf
    rw [hmc, hti, htd]
    norm_num [r2]
  have htax : taxOf exW 0 = 0 := by
    unfold taxOf
    have h0 : exW.taxRate = 0 := rfl
    rw [h0]
    norm_num [r2_zero]
  have hsnap : monthSnapOf exW 0 (initState exW) = snapW := by
    unfold monthSnapOf
    rw [hdp, hip]
    simp [snapW, hmc, hnw, htd, hti, hni, hte]
  have h1 : simulate exW = monthStep exW 0 (initState exW) := rfl
  rw [h1]
  unfold monthStep
  rw [hmc, hdp, hip, htd, hsnap, htax]
  norm_num [initState, exW, r2_zero, goalUpdate]

theorem exW_eval : computeForecast exW = some frW := by
  simp only [computeForecast, exW_simulate]
  rfl

def expNeg : ExpenseInput :=
  { amount := 100, category := ExpenseCategory.fixed, startMonth := 0,
    endMonth := none, growthRate := 0, isOneTime := false }

/-- One-month scenario with zero buffer and expenses exceeding income. -/
def exNeg : ScenarioInput :=
  { months := 1, initialCash := 0, incomes := [], expenses := [expNeg],
    debts := [], investments := [], inflationRate := 0, taxRate := 0,
    oneTimeEvents := [], goals := [] }

def snapNeg : MonthSnapshot :=
  { month := 0, cash := -100, netWorth := -100, totalDebt := 0,
    totalInvestments := 0, totalIncome := 0, totalExpenses := 100,
    totalDebtPayment := 0, totalInvestmentContribution := 0 }

def frNeg : ForecastResult :=
  { snapshots := [snapNeg],
    summary := { endCash := -100, endNetWorth := -100, minCash := -100,
                 minCashMonth := 0, negativeCashMonths := [0],
                 debtFreeMonth := none, totalInterestPaid := 0,
                 endInvestmentValue := 0, totalTaxPaid := 0 },
    goalProgress := [] }

theorem exNeg_simulate : simulate exNeg =
    { cash := -100, debtStates := [], invValues := [], snapshots := [snapNeg],
      totalInterestPaid := 0, totalTaxPaid := 0, negativeCashMonths := [0],
      debtFreeMonth := none, minCash := -100, minCashMonth := 0,
      goalAchievedMonth := [] } := by
  have hni : netIncomeOf exNeg 0 = 0 := netIncomeOf_nil exNeg rfl 0
  have hte : totalExpensesOf exNeg 0 = 100 :=
    constFlow_totalExpenses exNeg expNeg rfl rfl rfl rfl rfl rfl
      (by norm_num [r2, expNeg]) 0
  have hot : oneTimeNetOf exNeg 0 = 0 := oneTimeNetOf_nil exNeg rfl 0
  have hdp : dpOf exNeg 0 (initState exNeg) =
      { states := [], totalPayment := 0, totalInterest := 0 } := rfl
  have hip : ipOf exNeg (initState exNeg) = { values := [], totalContrib := 0 } := rfl
  have hpre : preDebtCashOf exNeg 0 (initState exNeg).cash = -100 := by
    show preDebtCashOf exNeg 0 0 = -100
    unfold preDebtCashOf
    rw [hni, hte, hot]
    norm_num [r2]
  have hmc : monthCashOf exNeg 0 (initState exNeg) = -100 := by
    unfold monthCashOf
    rw [hdp, hip, hpre]
    norm_num [r2]
  have htd : monthTotalDebtOf exNeg 0 (initState exNeg) = 0 := by
    unfold monthTotalDebtOf
    rw [hdp]
    simp [r2_zero]
  have hti : monthTotalInvOf exNeg (initState exNeg) = 0 := by
    unfold monthTotalInvOf
    rw [hip]
    simp [r2_zero]
  have hnw : monthNetWorthOf exNeg 0 (initState exNeg) = -100 := by
    unfold monthNetWorthOf
    rw [hmc, hti, htd]
    norm_num [r2]
  have htax : taxOf exNeg 0 = 0 := by
    unfold taxOf
    have h0 : exNeg.taxRate = 0 := rfl
    rw [h0]
    norm_num [r2_zero]
  have hsnap : monthSnapOf exNeg 0 (initState exNeg) = snapNeg := by
    unfold monthSnapOf
    rw [hdp, hip]
    simp [snapNeg, hmc, hnw, htd, hti, hni, hte]
  have h1 : simulate exNeg = monthStep exNeg 0 (initState exNeg) := rfl
  rw [h1]
  unfold monthStep
  rw [hmc, hdp, hip, htd, hsnap, htax]
  norm_num [initState, exNeg, r2_zero, goalUpdate]

theorem exNeg_eval : computeForecast exNeg = some frNeg := by
  simp only [computeForecast, exNeg_simulate]
  rfl

/-- One-month scenario with no line items at all. -/
def exEmpty : ScenarioInput :=
  { months := 1, initialCash := 0, incomes := [], expenses := [],
    debts := [], investments := [], inflationRate := 0, taxRate := 0,
    oneTimeEvents := [], goals := [] }

def snapEmpty : MonthSnapshot :=
  { month := 0, cash := 0, netWorth := 0, totalDebt := 0,
    totalInvestments := 0, totalIncome := 0, totalExpenses := 0,
    totalDebtPayment := 0, totalInvestmentContribution := 0 }

def frEmpty : ForecastResult :=
  { snapshots := [snapEmpty],
    summary := { endCash := 0, endNetWorth := 0, minCash := 0,
                 minCashMonth := 0, negativeCashMonths := [],
                 debtFreeMonth := none, totalInterestPaid := 0,
                 endInvestmentValue := 0, totalTaxPaid := 0 },
    goalProgress := [] }

theorem exEmpty_simulate : simulate exEmpty =
    { cash := 0, debtStates := [], invValues := [], snapshots := [snapEmpty],
      totalInterestPaid := 0, totalTaxPaid := 0, negativeCashMonths := [],
      debtFreeMonth := none, minCash := 0, minCashMonth := 0,
      goalAchievedMonth := [] } := by
  have hni : netIncomeOf exEmpty 0 = 0 := netIncomeOf_nil exEmpty rfl 0
  have hte : totalExpensesOf exEmpty 0 = 0 := totalExpensesOf_nil exEmpty rfl 0
  have hot : oneTimeNetOf exEmpty 0 = 0 := oneTimeNetOf_nil exEmpty rfl 0
  have hdp : dpOf exEmpty 0 (initState exEmpty) =
      { states := [], totalPayment := 0, totalInterest := 0 } := rfl
  have hip : ipOf exEmpty (initState exEmpty) =
      { values := [], totalContrib := 0 } := rfl
  have hpre : preDebtCashOf exEmpty 0 (initState exEmpty).cash = 0 := by
    show preDebtCashOf exEmpty 0 0 = 0
    unfold preDebtCashOf
    rw [hni, hte, hot]
    norm_num [r2_zero]
  have hmc : monthCashOf exEmpty 0 (initState exEmpty) = 0 := by
    unfold monthCashOf
    rw [hdp, hip, hpre]
    norm_num [r2_zero]
  have htd : monthTotalDebtOf exEmpty 0 (initState exEmpty) = 0 := by
    unfold monthTotalDebtOf
    rw [hdp]
    simp [r2_zero]
  have hti : monthTotalInvOf exEmpty (initState exEmpty) = 0 := by
    unfold monthTotalInvOf
    rw [hip]
    simp [r2_zero]
  have hnw : monthNetWorthOf exEmpty 0 (initState exEmpty) = 0 := by
    unfold monthNetWorthOf
    rw [hmc, hti, htd]
    norm_num [r2_zero]
  have htax : taxOf exEmpty 0 = 0 := by
    unfold taxOf
    have h0 : exEmpty.taxRate = 0 := rfl
    rw [h0]
    norm_num [r2_zero]
  have hsnap : monthSnapOf exEmpty 0 (initState exEmpty) = snapEmpty := by
    unfold monthSnapOf
    rw [hdp, hip]
    simp [snapEmpty, hmc, hnw, htd, hti, hni, hte]
  have h1 : simulate exEmpty = monthStep exEmpty 0 (initState exEmpty) := rfl
  rw [h1]
  unfold monthStep
  rw [hmc, hdp, hip, htd, hsnap, htax]
  norm_num [initState, exEmpty, r2_zero, goalUpdate]

theorem exEmpty_eval : computeForecast exEmpty = some frEmpty := by
  simp only [computeForecast, exEmpty_simulate]
  rfl

def respEmpty : AdvisorResponse :=
  { insights :=
      [{ kind := InsightKind.projectedNetWorth, impact := 0,
         confidence := Confidence.high },
       { kind := InsightKind.cashFlowStable, impact := 0,
         confidence := Confidence.med }],
    alerts := [], actions := [] }

theorem advisor_exEmpty_eval :
    runHeuristicAdvisor exEmpty frEmpty 3 = some respEmpty := by
  have htd0 : totalDebtOf exEmpty = 0 := by
    unfold totalDebtOf
    simp [exEmpty, r2_zero]
  have hti0 : totalInterestEstimateOf exEmpty = 0 := by
    unfold totalInterestEstimateOf
    simp [exEmpty, r2_zero]
  have hca : cashAlerts frEmpty.snapshots
      (frEmpty.summary.negativeCashMonths.take 5) = some [] := rfl
  have hag : aggressiveActionsOf exEmpty = some [] := by
    unfold aggressiveActionsOf
    rw [htd0]
    simp
  have hbo : boostActionsOf exEmpty = some [] := by
    unfold boostActionsOf
    simp [exEmpty]
  have hdisc : discActionsOf exEmpty frEmpty = [] := by
    unfold discActionsOf
    simp [exEmpty]
  have hpre : preInsightsOf exEmpty frEmpty =
      [{ kind := InsightKind.projectedNetWorth, impact := 0,
         confidence := Confidence.high }] := by
    unfold preInsightsOf
    simp [frEmpty, exEmpty]
  have hins : insightsOf exEmpty frEmpty = respEmpty.insights := by
    unfold insightsOf
    rw [hpre]
    simp [fillerInsight, frEmpty, respEmpty]
  have hspike : spikeAlert frEmpty.snapshots = [] := rfl
  have hda : debtAlertListOf exEmpty = [] := by
    unfold debtAlertListOf
    rw [hti0]
    simp
  have hmea : monthlyExpensesAvgOf frEmpty = 0 := by
    unfold monthlyExpensesAvgOf
    simp [frEmpty, snapEmpty, r2_zero]
  have hem : emergencyAlertListOf frEmpty 3 = [] := by
    unfold emergencyAlertListOf emergencyTargetOf
    rw [hmea]
    norm_num [frEmpty, r2_zero]
  unfold runHeuristicAdvisor
  rw [hca, hag, hbo]
  simp only [hins, hspike, hda, hem, hdisc]
  simp [respEmpty]

def respNeg : AdvisorResponse :=
  { insights :=
      [{ kind := InsightKind.projectedNetWorth, impact := -100,
         confidence := Confidence.high },
       { kind := InsightKind.negativeCashCount, impact := -100,
         confidence := Confidence.high },
       { kind := InsightKind.cashFlowStable, impact := -100,
         confidence := Confidence.med }],
    alerts := [{ atype := AlertType.cash, monthIndex := 0 },
               { atype := AlertType.cash, monthIndex := 0 }],
    actions := [] }

theorem advisor_exNeg_eval :
    runHeuristicAdvisor exNeg frNeg 3 = some respNeg := by
  have htd0 : totalDebtOf exNeg = 0 := by
    unfold totalDebtOf
    simp [exNeg, r2_zero]
  have hti0 : totalInterestEstimateOf exNeg = 0 := by
    unfold totalInterestEstimateOf
    simp [exNeg, r2_zero]
  have hca : cashAlerts frNeg.snapshots
      (frNeg.summary.negativeCashMonths.take 5) =
      some [{ atype := AlertType.cash, monthIndex := 0 }] := rfl
  have hag : aggressiveActionsOf exNeg = some [] := by
    unfold aggressiveActionsOf
    rw [htd0]
    simp
  have hbo : boostActionsOf exNeg = some [] := by
    unfold boostActionsOf
    simp [exNeg]
  have hdisc : discActionsOf exNeg frNeg = [] := by
    unfold discActionsOf
    simp [exNeg, expNeg]
  have hr2neg : r2 (-100) = -100 := by norm_num [r2]
  have hpre : preInsightsOf exNeg frNeg =
      [{ kind := InsightKind.projectedNetWorth, impact := -100,
         confidence := Confidence.high },
       { kind := InsightKind.negativeCashCount, impact := -100,
         confidence := Confidence.high }] := by
    unfold preInsightsOf
    simp [frNeg, exNeg, hr2neg]
  have hins : insightsOf exNeg frNeg = respNeg.insights := by
    unfold insightsOf
    rw [hpre]
    simp [fillerInsight, frNeg, respNeg]
  have hspike : spikeAlert frNeg.snapshots = [] := rfl
  have hda : debtAlertListOf exNeg = [] := by
    unfold debtAlertListOf
    rw [hti0]
    simp
  have hmea : monthlyExpensesAvgOf frNeg = 100 := by
    unfold monthlyExpensesAvgOf
    simp [frNeg, snapNeg]
    norm_num [r2]
  have hem : emergencyAlertListOf frNeg 3 =
      [{ atype := AlertType.cash, monthIndex := 0 }] := by
    unfold emergencyAlertListOf emergencyTargetOf
    rw [hmea]
    norm_num [frNeg, r2]
  unfold runHeuristicAdvisor
  rw [hca, hag, hbo]
  simp only [hins, hspike, hda, hem, hdisc]
  simp [respNeg]

-- ── Advisor structural lemmas ─────────────────────────────────────────────

theorem runHeuristicAdvisor_inv (sc : ScenarioInput) (fc : ForecastResult)
    (efm : ℚ) (resp : AdvisorResponse)
    (h : runHeuristicAdvisor sc fc efm = some resp) :
    resp.insights = (insightsOf sc fc).take 6 ∧
    ∃ negAlerts,
      cashAlerts fc.snapshots (fc.summary.negativeCashMonths.take 5) =
        some negAlerts ∧
      resp.alerts = negAlerts ++ spikeAlert fc.snapshots ++
        debtAlertListOf sc ++ emergencyAlertListOf fc efm := by
  unfold runHeuristicAdvisor at h
  rcases hca : cashAlerts fc.snapshots (fc.summary.negativeCashMonths.take 5)
    with _ | negAlerts
  · rw [hca] at h; exact Option.noConfusion h
  · rw [hca] at h
    rcases hag : aggressiveActionsOf sc with _ | aggrList
    · rw [hag] at h; exact Option.noConfusion h
    · rw [hag] at h
      rcases hbo : boostActionsOf sc with _ | boostList
      · rw [hbo] at h; exact Option.noConfusion h
      · rw [hbo] at h
        simp only [Option.some.injEq] at h
        rw [← h]
        exact ⟨rfl, negAlerts, rfl, rfl⟩

theorem cashAlerts_eq_map (snaps : List MonthSnapshot) :
    ∀ (l : List ℕ) (al : List Alert), cashAlerts snaps l = some al →
      al = l.map (fun m => { atype := AlertType.cash, monthIndex := (m : ℤ) }) := by
  intro l
  induction l with
  | nil =>
    intro al h
    simp [cashAlerts] at h
    simp [← h]
  | cons m ms ih =>
    intro al h
    unfold cashAlerts at h
    rcases hg : snaps[m]? with _ | s
    · rw [hg] at h; exact Option.noConfusion h
    · rw [hg] at h
      rcases hr : cashAlerts snaps ms with _ | rest
      · rw [hr] at h; exact Option.noConfusion h
      · rw [hr] at h
        simp only [Option.some.injEq] at h
        rw [← h, List.map_cons, ih rest hr]

theorem preInsightsOf_length_pos (sc : ScenarioInput) (fc : ForecastResult) :
    1 ≤ (preInsightsOf sc fc).length := by
  unfold preInsightsOf
  simp

-- ── Claims ────────────────────────────────────────────────────────────────

/-- Scenario with a zero-month horizon. -/
def scZero : ScenarioInput :=
  { months := 0, initialCash := 0, incomes := [], expenses := [], debts := [],
    investments := [], inflationRate := 0, taxRate := 0, oneTimeEvents := [],
    goals := [] }

/-- C1 counterexample: with a zero-month horizon the month loop pushes no
snapshots, and reading `snapshots[snapshots.length - 1].cash` after the loop
throws (embedded as `none`) — `computeForecast` does not return a degenerate
`ForecastResult` on this degenerate input. -/
theorem computeForecast_zero_months_throws : computeForecast scZero = none := rfl

/-- C1 (amended): `computeForecast` returns a `ForecastResult` for every
scenario with at least one simulated month; raises only for a horizon of
zero simulated months. -/
theorem computeForecast_total_of_pos_months :
    ∀ sc : ScenarioInput, 1 ≤ sc.months → ∃ fr, computeForecast sc = some fr :=
  fun sc h => computeForecast_some sc h

/-- C1 witness. -/
theorem computeForecast_total_of_pos_months_witness :
    ∃ fr, computeForecast exW = some fr :=
  computeForecast_total_of_pos_months exW (by decide)

/-- C2: the debt loop writes back each debt's update in input order, each
debt is evaluated against the one shared `extraCash = max(0, preDebtCash)`
(the running totals fold over per-debt results computed independently from
the same `extraCash`, which is never decremented), and an unpaid aggressive
debt with positive balance pays
`min(balance + interest, minPayment + max(0, extraCash × 0.3))` rounded
to 2 decimals. -/
theorem debt_loop_shared_extraCash :
    (∀ (sc : ScenarioInput) (m : ℕ) (st : SimState),
      (monthStep sc m st).snapshots.getLast? = some (monthSnapOf sc m st) ∧
      (monthSnapOf sc m st).totalDebtPayment =
        (debtPhase st.debtStates
          (max 0 (preDebtCashOf sc m st.cash))).totalPayment) ∧
    (∀ (ds : List DebtState) (e : ℚ),
      (debtPhase ds e).states = ds.map (fun d => debtUpdate d e) ∧
      (debtPhase ds e).totalPayment =
        (ds.map (fun d => (stepDebt d e).payment)).foldl
          (fun s p => r2 (s + p)) 0) ∧
    (∀ (d : DebtState) (e : ℚ), d.paidOff = false → 0 < d.balance →
      d.strategy = DebtStrategy.aggressive →
      (stepDebt d e).payment =
        r2 (min (d.balance + r2 (d.balance * (d.annualRate / 100 / 12)))
                (d.minPayment + max 0 (e * (3 / 10))))) := by
  refine ⟨fun sc m st => ⟨?_, rfl⟩,
    fun ds e => ⟨debtPhase_states ds e, debtPhase_totalPayment ds e⟩,
    fun d e hp hb hs => ?_⟩
  · rw [monthStep_snapshots]
    exact List.getLast?_concat _
  · have hnot : ¬(d.paidOff = true ∨ d.balance ≤ 0) := by
      rw [hp]
      simp [not_le.mpr hb]
    unfold stepDebt
    rw [if_neg hnot, hs]

def dW : DebtState :=
  { balance := 1000, annualRate := 12, minPayment := 50,
    strategy := DebtStrategy.aggressive, paidOff := false }

/-- C2 witness. -/
theorem debt_loop_shared_extraCash_witness :
    (stepDebt dW 100).payment =
      r2 (min (dW.balance + r2 (dW.balance * (dW.annualRate / 100 / 12)))
              (dW.minPayment + max 0 (100 * (3 / 10)))) :=
  debt_loop_shared_extraCash.2.2 dW 100 rfl (by norm_num [dW]) rfl

/-- C3: every monetary field of every snapshot of every produced
`ForecastResult` is a fixed point of the 2-decimal rounding `r2` — rounding
is applied when each field is computed, not deferred. -/
theorem snapshot_fields_rounded :
    ∀ (sc : ScenarioInput) (fr : ForecastResult), computeForecast sc = some fr →
    ∀ s ∈ fr.snapshots,
      r2 s.cash = s.cash ∧ r2 s.netWorth = s.netWorth ∧
      r2 s.totalDebt = s.totalDebt ∧
      r2 s.totalInvestments = s.totalInvestments ∧
      r2 s.totalIncome = s.totalIncome ∧ r2 s.totalExpenses = s.totalExpenses ∧
      r2 s.totalDebtPayment = s.totalDebtPayment ∧
      r2 s.totalInvestmentContribution = s.totalInvestmentContribution := by
  intro sc fr h s hs
  obtain ⟨hsn, -, -, -⟩ := computeForecast_inv sc fr h
  rw [hsn] at hs
  exact snapshots_rounded sc sc.months s hs

/-- C3 witness. -/
theorem snapshot_fields_rounded_witness :
    r2 snapW.cash = snapW.cash ∧ r2 snapW.netWorth = snapW.netWorth ∧
    r2 snapW.totalDebt = snapW.totalDebt ∧
    r2 snapW.totalInvestments = snapW.totalInvestments ∧
    r2 snapW.totalIncome = snapW.totalIncome ∧
    r2 snapW.totalExpenses = snapW.totalExpenses ∧
    r2 snapW.totalDebtPayment = snapW.totalDebtPayment ∧
    r2 snapW.totalInvestmentContribution = snapW.totalInvestmentContribution :=
  snapshot_fields_rounded exW frW exW_eval snapW (by simp [frW])

/-- Observer: `computeForecast(sc).snapshots[k].cash`. -/
def forecastCashAt (sc : ScenarioInput) (k : ℕ) : Option ℚ :=
  (computeForecast sc).bind (fun fr => (fr.snapshots[k]?).map (fun s => s.cash))

def incC4 : IncomeInput :=
  { amount := 20000, startMonth := 0, endMonth := none, growthRate := 0 }

def expC4 : ExpenseInput :=
  { amount := 10000, category := ExpenseCategory.fixed, startMonth := 0,
    endMonth := none, growthRate := 0, isOneTime := false }

/-- The spec's 60-month example scenario. -/
def exC4 : ScenarioInput :=
  { months := 60, initialCash := 100000, incomes := [incC4],
    expenses := [expC4], debts := [], investments := [], inflationRate := 0,
    taxRate := 0, oneTimeEvents := [], goals := [] }

/-- C4: for a scenario with no debts, no investments, no tax, no inflation,
no one-time events, one income `I` and one expense `E` (active from month 0,
zero growth, 2-decimal amounts and initial cash),
`snapshots[k].cash = initialCash + (k+1)·(I − E)` for every `k < months`;
in particular the 60-month example yields 110000 and 120000 in months 0, 1. -/
theorem constFlow_cash_closed_form :
    (∀ (sc : ScenarioInput) (inc : IncomeInput) (e : ExpenseInput),
      sc.incomes = [inc] → sc.expenses = [e] → sc.debts = [] →
      sc.investments = [] → sc.inflationRate = 0 → sc.taxRate = 0 →
      sc.oneTimeEvents = [] → inc.startMonth = 0 → inc.endMonth = none →
      inc.growthRate = 0 → e.startMonth = 0 → e.endMonth = none →
      e.growthRate = 0 → e.isOneTime = false → r2 inc.amount = inc.amount →
      r2 e.amount = e.amount → r2 sc.initialCash = sc.initialCash →
      ∀ k : ℕ, k < sc.months →
        forecastCashAt sc k =
          some (sc.initialCash + ((k : ℚ) + 1) * (inc.amount - e.amount))) ∧
    forecastCashAt exC4 0 = some 110000 ∧ forecastCashAt exC4 1 = some 120000 := by
  have hgen : ∀ (sc : ScenarioInput) (inc : IncomeInput) (e : ExpenseInput),
      sc.incomes = [inc] → sc.expenses = [e] → sc.debts = [] →
      sc.investments = [] → sc.inflationRate = 0 → sc.taxRate = 0 →
      sc.oneTimeEvents = [] → inc.startMonth = 0 → inc.endMonth = none →
      inc.growthRate = 0 → e.startMonth = 0 → e.endMonth = none →
      e.growthRate = 0 → e.isOneTime = false → r2 inc.amount = inc.amount →
      r2 e.amount = e.amount → r2 sc.initialCash = sc.initialCash →
      ∀ k : ℕ, k < sc.months →
        forecastCashAt sc k =
          some (sc.initialCash + ((k : ℚ) + 1) * (inc.amount - e.amount)) := by
    intro sc inc e hin hex hdebts hinvs hinfl htax hote histart hiend higr
      hestart heend hegr heone hI hE hC k hk
    have hpos : 0 < sc.months := lt_of_le_of_lt (Nat.zero_le k) hk
    obtain ⟨fr, hfr⟩ := computeForecast_some sc hpos
    obtain ⟨hsn, -, -, -⟩ := computeForecast_inv sc fr hfr
    obtain ⟨-, -, hmap⟩ := constFlow_sim sc inc e hin hex hdebts hinvs hinfl
      htax hote histart hiend higr hestart heend hegr heone hI hE hC sc.months
    unfold forecastCashAt
    rw [hfr]
    show (fr.snapshots[k]?).map (fun s => s.cash) = _
    rw [hsn]
    rw [← List.getElem?_map]
    have hmap' : (simulate sc).snapshots.map (fun s => s.cash) =
        (List.range sc.months).map
          (fun j : ℕ => sc.initialCash + ((j : ℚ) + 1) * (inc.amount - e.amount)) :=
      hmap
    rw [hmap']
    rw [List.getElem?_map, List.getElem?_range hk]
    rfl
  refine ⟨hgen, ?_, ?_⟩
  · have h0 := hgen exC4 incC4 expC4 rfl rfl rfl rfl rfl rfl rfl rfl rfl rfl
      rfl rfl rfl rfl (by norm_num [r2, incC4]) (by norm_num [r2, expC4])
      (by norm_num [r2, exC4]) 0 (by norm_num [exC4])
    norm_num [incC4, expC4, exC4] at h0
    exact h0
  · have h1 := hgen exC4 incC4 expC4 rfl rfl rfl rfl rfl rfl rfl rfl rfl rfl
      rfl rfl rfl rfl (by norm_num [r2, incC4]) (by norm_num [r2, expC4])
      (by norm_num [r2, exC4]) 1 (by norm_num [exC4])
    norm_num [incC4, expC4, exC4] at h1
    exact h1

/-- C4 witness. -/
theorem constFlow_cash_closed_form_witness :
    forecastCashAt exW 0 = some 50 := by
  have h := constFlow_cash_closed_form.1 exW incW expW rfl rfl rfl rfl rfl rfl
    rfl rfl rfl rfl rfl rfl rfl rfl (by norm_num [r2, incW])
    (by norm_num [r2, expW]) (by norm_num [r2, exW]) 0 (by decide)
  norm_num [incW, expW, exW] at h
  exact h

/-- C5: an active expense contributes its amount grown by the yearly-stepped
factor `(1 + growthRate/100)^⌊m/12⌋` (rounded) times the monthly-compounded
inflation multiplier `(1 + inflationRate/100/12)^m`, while an active income
uses the same yearly-stepped exponent and is never inflation-adjusted. -/
theorem growth_yearly_inflation_monthly :
    (∀ (e : ExpenseInput) (m : ℕ), e.startMonth ≤ m →
      pastEnd e.endMonth m = false → (e.isOneTime = true → m = e.startMonth) →
      monthlyExpense e m =
        r2 (e.amount * (1 + e.growthRate / 100) ^ (m / 12))) ∧
    (∀ (sc : ScenarioInput) (m : ℕ),
      totalExpensesOf sc m =
        r2 ((sc.expenses.map (fun e =>
          monthlyExpense e m * (1 + sc.inflationRate / 100 / 12) ^ m)).sum)) ∧
    (∀ (inc : IncomeInput) (m : ℕ), inc.startMonth ≤ m →
      pastEnd inc.endMonth m = false →
      monthlyIncome inc m =
        r2 (inc.amount * (1 + inc.growthRate / 100) ^ (m / 12))) ∧
    (∀ (sc : ScenarioInput) (m : ℕ),
      grossIncomeOf sc m =
        r2 ((sc.incomes.map (fun i => monthlyIncome i m)).sum)) := by
  refine ⟨fun e m h1 h2 h3 => ?_, fun sc m => ?_, fun inc m h1 h2 => ?_,
    fun sc m => ?_⟩
  · unfold monthlyExpense
    rw [if_neg (Nat.not_lt.mpr h1), h2]
    rcases hone : e.isOneTime with _ | _
    · simp
    · have hm : m = e.startMonth := h3 hone
      simp [hm]
  · unfold totalExpensesOf
    rw [foldl_add_eq_sum
      (fun e => monthlyExpense e m * inflationMultiplierOf sc m) sc.expenses 0,
      zero_add]
    rfl
  · unfold monthlyIncome
    rw [if_neg (Nat.not_lt.mpr h1), h2]
    simp
  · unfold grossIncomeOf
    rw [foldl_add_eq_sum (fun i => monthlyIncome i m) sc.incomes 0, zero_add]

/-- C5 witness. -/
theorem growth_yearly_inflation_monthly_witness :
    monthlyExpense expW 5 =
      r2 (expW.amount * (1 + expW.growthRate / 100) ^ (5 / 12)) :=
  growth_yearly_inflation_monthly.1 expW 5 (by decide) rfl
    (fun h => absurd h (by decide))

/-- C6: for every valid scenario (1–360 months) `computeForecast` succeeds
with exactly `months` snapshots, snapshot `k` carrying month index `k`. -/
theorem snapshot_count_and_index :
    ∀ sc : ScenarioInput, 1 ≤ sc.months → sc.months ≤ 360 →
      (computeForecast sc).map (fun fr => fr.snapshots.length) =
        some sc.months ∧
      ∀ fr, computeForecast sc = some fr →
        ∀ (k : ℕ) (snap : MonthSnapshot), fr.snapshots[k]? = some snap →
          snap.month = k := by
  intro sc h1 h360
  obtain ⟨fr, hfr⟩ := computeForecast_some sc h1
  constructor
  · obtain ⟨hsn, -, -, -⟩ := computeForecast_inv sc fr hfr
    rw [hfr, Option.map_some']
    rw [hsn]
    have hlen : (simulate sc).snapshots.length = sc.months :=
      snapshots_length sc sc.months
    rw [hlen]
  · intro fr' hfr' k snap hk
    obtain ⟨hsn', -, -, -⟩ := computeForecast_inv sc fr' hfr'
    rw [hsn'] at hk
    exact snap_month_of_getElem sc sc.months k snap hk

/-- C6 witness. -/
theorem snapshot_count_and_index_witness :
    (computeForecast exW).map (fun fr => fr.snapshots.length) =
      some exW.months :=
  (snapshot_count_and_index exW (by decide) (by decide)).1

/-- C7: `negativeCashMonths` lists exactly the month indices whose snapshot
closed with negative cash, and the zero-buffer deficit scenario `exNeg`
produces a non-empty list. -/
theorem negative_cash_months_characterised :
    (∀ (sc : ScenarioInput) (fr : ForecastResult), computeForecast sc = some fr →
      ∀ m : ℕ, m ∈ fr.summary.negativeCashMonths ↔
        ∃ snap, fr.snapshots[m]? = some snap ∧ snap.cash < 0) ∧
    ∃ fr, computeForecast exNeg = some fr ∧
      fr.summary.negativeCashMonths ≠ [] := by
  constructor
  · intro sc fr hfr m
    obtain ⟨hsn, -, -, hneg⟩ := computeForecast_inv sc fr hfr
    have hfil : (simulate sc).negativeCashMonths =
        ((simulate sc).snapshots.filter (fun s => decide (s.cash < 0))).map
          (fun s => s.month) := negCash_eq_filter sc sc.months
    rw [hsn, hneg, hfil]
    constructor
    · intro hm
      obtain ⟨s, hsf, hsm⟩ := List.mem_map.mp hm
      obtain ⟨hsmem, hslt⟩ := List.mem_filter.mp hsf
      refine ⟨s, ?_, of_decide_eq_true hslt⟩
      rw [← hsm]
      exact getElem_of_mem_snapshots sc sc.months s hsmem
    · rintro ⟨snap, hk, hlt⟩
      obtain ⟨hw, hval⟩ := List.getElem?_eq_some.mp hk
      have hmem : snap ∈ (simulate sc).snapshots := by
        rw [← hval]
        exact List.getElem_mem hw
      have hmonth : snap.month = m := snap_month_of_getElem sc sc.months m snap hk
      exact List.mem_map.mpr
        ⟨snap, List.mem_filter.mpr ⟨hmem, decide_eq_true hlt⟩, hmonth⟩
  · exact ⟨frNeg, exNeg_eval, by simp [frNeg]⟩

/-- C7 witness. -/
theorem negative_cash_months_characterised_witness :
    0 ∈ frNeg.summary.negativeCashMonths ↔
      ∃ snap, frNeg.snapshots[0]? = some snap ∧ snap.cash < 0 :=
  negative_cash_months_characterised.1 exNeg frNeg exNeg_eval 0

/-- C8 counterexample: a scenario with no debts, no investments and a
forecast with no negative-cash months yields exactly two insights (base plus
filler) — the claimed "practical minimum of 3 insights" does not hold. -/
theorem advisor_two_insights_counterexample :
    ((computeForecast exEmpty).bind
      (fun fc => runHeuristicAdvisor exEmpty fc 3)).map
        (fun r => r.insights.length) = some 2 := by
  rw [exEmpty_eval]
  show (runHeuristicAdvisor exEmpty frEmpty 3).map (fun r => r.insights.length)
    = some 2
  rw [advisor_exEmpty_eval]
  rfl

/-- C8 (amended): the advisor returns between 1 and 6 insights; when fewer
than 3 insights accumulate before the filler step, the "cash flow stable"
filler (impact `minCash`, confidence med) is appended, which guarantees a
minimum of 2 insights — not 3. -/
theorem advisor_insight_bounds :
    ∀ (sc : ScenarioInput) (fc : ForecastResult) (efm : ℚ)
      (resp : AdvisorResponse), runHeuristicAdvisor sc fc efm = some resp →
      1 ≤ resp.insights.length ∧ resp.insights.length ≤ 6 ∧
      2 ≤ resp.insights.length ∧
      ((preInsightsOf sc fc).length < 3 →
        resp.insights = preInsightsOf sc fc ++ [fillerInsight fc]) := by
  intro sc fc efm resp h
  obtain ⟨hins, -⟩ := runHeuristicAdvisor_inv sc fc efm resp h
  have hpre := preInsightsOf_length_pos sc fc
  have hlen2 : 2 ≤ (insightsOf sc fc).length := by
    unfold insightsOf
    by_cases h3 : (preInsightsOf sc fc).length < 3
    · rw [if_pos h3]
      simp only [List.length_append, List.length_cons, List.length_nil]
      omega
    · rw [if_neg h3]
      omega
  have hlen1 : 1 ≤ (insightsOf sc fc).length := le_trans (by norm_num) hlen2
  refine ⟨?_, ?_, ?_, fun h3 => ?_⟩
  · rw [hins, List.length_take]
    exact le_min (by norm_num) hlen1
  · rw [hins, List.length_take]
    exact min_le_left _ _
  · rw [hins, List.length_take]
    exact le_min (by norm_num) hlen2
  · rw [hins]
    unfold insightsOf
    rw [if_pos h3]
    apply List.take_of_length_le
    simp only [List.length_append, List.length_cons, List.length_nil]
    omega

/-- C8 witness. -/
theorem advisor_insight_bounds_witness :
    1 ≤ respEmpty.insights.length ∧ respEmpty.insights.length ≤ 6 ∧
    2 ≤ respEmpty.insights.length ∧
    ((preInsightsOf exEmpty frEmpty).length < 3 →
      respEmpty.insights = preInsightsOf exEmpty frEmpty ++
        [fillerInsight frEmpty]) :=
  advisor_insight_bounds exEmpty frEmpty 3 respEmpty advisor_exEmpty_eval

/-- C9: the advisor's alert list begins with one `cash` alert per entry of
`negativeCashMonths` (capped at the first 5), each carrying that month's
index; a non-empty `negativeCashMonths` therefore yields a `cash` alert. -/
theorem cash_alert_per_negative_month :
    ∀ (sc : ScenarioInput) (fc : ForecastResult) (efm : ℚ)
      (resp : AdvisorResponse), runHeuristicAdvisor sc fc efm = some resp →
      (∃ rest, resp.alerts =
        (fc.summary.negativeCashMonths.take 5).map
          (fun m => { atype := AlertType.cash, monthIndex := (m : ℤ) }) ++
          rest) ∧
      (fc.summary.negativeCashMonths ≠ [] →
        ∃ a ∈ resp.alerts, a.atype = AlertType.cash) := by
  intro sc fc efm resp h
  obtain ⟨-, negAlerts, hca, halerts⟩ := runHeuristicAdvisor_inv sc fc efm resp h
  have hmap := cashAlerts_eq_map fc.snapshots _ negAlerts hca
  constructor
  · refine ⟨spikeAlert fc.snapshots ++ debtAlertListOf sc ++
      emergencyAlertListOf fc efm, ?_⟩
    rw [halerts, hmap]
    simp [List.append_assoc]
  · intro hne
    rcases hl : fc.summary.negativeCashMonths with _ | ⟨m, ms⟩
    · exact absurd hl hne
    · refine ⟨{ atype := AlertType.cash, monthIndex := (m : ℤ) }, ?_, rfl⟩
      rw [halerts, hmap, hl, List.take_succ_cons, List.map_cons]
      simp

/-- C9 witness. -/
theorem cash_alert_per_negative_month_witness :
    (∃ rest, respNeg.alerts =
      (frNeg.summary.negativeCashMonths.take 5).map
        (fun m => { atype := AlertType.cash, monthIndex := (m : ℤ) }) ++
        rest) ∧
    (frNeg.summary.negativeCashMonths ≠ [] →
      ∃ a ∈ respNeg.alerts, a.atype = AlertType.cash) :=
  cash_alert_per_negative_month exNeg frNeg 3 respNeg advisor_exNeg_eval

/-- C10: `minCash` is the minimum of `initialCash` and all snapshot cash
values; when no snapshot falls below `initialCash`, `minCash` stays
`initialCash` and `minCashMonth` stays 0 — even when `snapshots[0].cash`
differs from `initialCash`. -/
theorem minCash_is_min_with_initial :
    ∀ (sc : ScenarioInput) (fr : ForecastResult), computeForecast sc = some fr →
      fr.summary.minCash =
        (fr.snapshots.map (fun s => s.cash)).foldl min sc.initialCash ∧
      ((∀ s ∈ fr.snapshots, sc.initialCash ≤ s.cash) →
        fr.summary.minCash = sc.initialCash ∧ fr.summary.minCashMonth = 0) := by
  intro sc fr h
  obtain ⟨hsn, hmin, hminM, -⟩ := computeForecast_inv sc fr h
  constructor
  · rw [hmin, hsn]
    exact minCash_eq_foldl sc sc.months
  · intro hall
    have hall' : ∀ s ∈ (simulateUpTo sc sc.months).snapshots,
        sc.initialCash ≤ s.cash := by
      intro s hs
      exact hall s (by rw [hsn]; exact hs)
    obtain ⟨ha, hb⟩ := minCash_of_all_ge sc sc.months hall'
    exact ⟨by rw [hmin]; exact ha, by rw [hminM]; exact hb⟩

/-- C10 witness: in `exW` the month-0 cash is 50 ≠ initialCash = 0, yet
`minCash` is the initial cash with `minCashMonth = 0`. -/
theorem minCash_is_min_with_initial_witness :
    frW.summary.minCash = exW.initialCash ∧ frW.summary.minCashMonth = 0 :=
  (minCash_is_min_with_initial exW frW exW_eval).2
    (by
      intro s hs
      have hsw : s = snapW := by simpa [frW] using hs
      rw [hsw]
      norm_num [exW, snapW])
